import Mathlib

/-!
Shallow embedding of the Extremis harmonic-pattern trading system and proofs
about it.  Prices are modelled as rationals (the Python code uses floats but
performs only field arithmetic and comparisons), timestamps and bar indices as
naturals, and the venue (exchange connector) as an explicit oracle record.

Sources embedded here:
  * `patterns/harmonic_detector.py`  — pivot scan, ratio map, butterfly check,
    confidence score;
  * `patterns/zone_manager.py`       — Fibonacci zones, trendline zones;
  * `trading/confirmation_system.py` — the three entry gates;
  * `trading/position_manager.py`    — entry execution, monitoring, cleanup;
  * `main.py`                        — the capacity check in `_handle_entry_signal`.
-/

/-- One OHLCV bar (a row of the pandas DataFrame, indexed by its timestamp).
`op` is the source's `open` column (renamed: `open` is reserved in Lean). -/
structure Candle where
  timestamp : Nat
  op : ℚ
  high : ℚ
  low : ℚ
  close : ℚ
  volume : ℚ
deriving DecidableEq, Inhabited

/-- The `'type'` field of a pivot dict: `'high'` or `'low'`. -/
inductive PivotKind where
  | high
  | low
deriving DecidableEq, Inhabited

/-- A pivot dict as produced by `HarmonicPatternDetector._find_pivots`:
`{'index': i, 'price': …, 'type': …, 'timestamp': df.index[i]}`. -/
structure Pivot where
  index : Nat
  price : ℚ
  type : PivotKind
  timestamp : Nat
deriving DecidableEq, Inhabited

/-- `HarmonicPatternDetector._find_pivots(df, window=5)`.

The Python loop runs `i` over `range(window, len(df) - window)` and, at each
`i`, appends a high pivot and then (independently) a low pivot when the
corresponding `all(...)` conditions hold.  The final `pivots.sort(key=index)`
is the identity: the list is built in nondecreasing index order and Python's
sort is stable (at equal indices the high pivot stays before the low pivot),
so it is not modelled separately. -/
def find_pivots (df : List Candle) (window : Nat) : List Pivot :=
  let highs := df.map Candle.high
  let lows := df.map Candle.low
  (List.range' window (df.length - 2 * window)).flatMap fun i =>
    (if ((List.range' 1 window).all fun j => decide (highs.getD (i - j) 0 ≤ highs.getD i 0)) &&
        ((List.range' 1 window).all fun j => decide (highs.getD (i + j) 0 ≤ highs.getD i 0))
     then [{ index := i, price := highs.getD i 0, type := PivotKind.high,
             timestamp := (df.getD i default).timestamp }]
     else []) ++
    (if ((List.range' 1 window).all fun j => decide (lows.getD i 0 ≤ lows.getD (i - j) 0)) &&
        ((List.range' 1 window).all fun j => decide (lows.getD i 0 ≤ lows.getD (i + j) 0))
     then [{ index := i, price := lows.getD i 0, type := PivotKind.low,
             timestamp := (df.getD i default).timestamp }]
     else [])

/-- Pattern direction: `'bearish' if d['type'] == 'high' else 'bullish'`. -/
inductive Direction where
  | bullish
  | bearish
deriving DecidableEq, Inhabited

/-- The ratio dict built by `_calculate_ratios`; a key is absent exactly when
its guard (`xa != 0`, `ab != 0`, `bc != 0`) failed. -/
structure Ratios where
  AB_XA : Option ℚ
  AD_XA : Option ℚ
  BC_AB : Option ℚ
  CD_BC : Option ℚ
deriving DecidableEq, Inhabited

/-- `HarmonicPatternDetector._calculate_ratios(x, a, b, c, d)`. -/
def calculate_ratios (x a b c d : Pivot) : Ratios :=
  let xa := |a.price - x.price|
  let ab := |b.price - a.price|
  let bc := |c.price - b.price|
  let cd := |d.price - c.price|
  let ad := |d.price - a.price|
  { AB_XA := if xa = 0 then none else some (ab / xa)
    AD_XA := if xa = 0 then none else some (ad / xa)
    BC_AB := if ab = 0 then none else some (bc / ab)
    CD_BC := if bc = 0 then none else some (cd / bc) }

/-- `self.tolerance = 0.05`. -/
def tolerance : ℚ := 0.05

/-- `HarmonicPatternDetector._is_ratio_valid(actual, expected, tolerance)`. -/
def is_ratio_valid (actual expected tol : ℚ) : Bool :=
  decide (|actual - expected| ≤ tol)

/-- `HarmonicPatternDetector._is_butterfly_pattern(ratios)`: build the list of
check booleans for the ratios that are present, accept iff at least 3 hold. -/
def is_butterfly_pattern (r : Ratios) : Bool :=
  let checks : List Bool :=
    (match r.AB_XA with
     | some v => [is_ratio_valid v 0.786 tolerance]
     | none => []) ++
    (match r.BC_AB with
     | some v => [decide (0.382 - tolerance ≤ v ∧ v ≤ 0.886 + tolerance)]
     | none => []) ++
    (match r.CD_BC with
     | some v => [decide (1.618 - tolerance ≤ v ∧ v ≤ 2.618 + tolerance)]
     | none => []) ++
    (match r.AD_XA with
     | some v => [decide (1.27 - tolerance ≤ v ∧ v ≤ 1.618 + tolerance)]
     | none => [])
  decide (3 ≤ checks.count true)

/-- `min(abs(bc_ab - level) for level in [0.382, 0.5, 0.618, 0.786, 0.886])`
from `_calculate_confidence`, written as nested binary minima. -/
def min_fib_distance (v : ℚ) : ℚ :=
  min (|v - 0.382|) (min (|v - 0.5|) (min (|v - 0.618|) (min (|v - 0.786|) (|v - 0.886|))))

/-- `HarmonicPatternDetector._calculate_confidence(ratios)`.  `np.mean` of the
present per-ratio scores, `0` when none is present.  Note the code picks the
`CD_BC` target by the cutoff `cd_bc > 2.0` and the `AD_XA` target by the
cutoff `ad_xa > 1.4`. -/
def calculate_confidence (r : Ratios) : ℚ :=
  let confidence_scores : List ℚ :=
    (match r.AB_XA with
     | some v => [max 0 (100 - |v - 0.786| * 100)]
     | none => []) ++
    (match r.BC_AB with
     | some v => [max 0 (100 - min_fib_distance v * 100)]
     | none => []) ++
    (match r.CD_BC with
     | some v => [max 0 (100 - |v - (if 2 < v then 2.618 else 1.618)| * 50)]
     | none => []) ++
    (match r.AD_XA with
     | some v => [max 0 (100 - |v - (if 1.4 < v then 1.618 else 1.27)| * 100)]
     | none => [])
  if confidence_scores.length = 0 then 0
  else confidence_scores.sum / confidence_scores.length

/-- The confidence function as the spec's words describe it (claim C3): each
two-target ratio is scored against whichever of its two template targets is
numerically closer (`CD_BC` against 1.618 vs 2.618, `AD_XA` against 1.27 vs
1.618); kept for comparison against `calculate_confidence`. -/
def confidence_spec_nearest (r : Ratios) : ℚ :=
  let confidence_scores : List ℚ :=
    (match r.AB_XA with
     | some v => [max 0 (100 - |v - 0.786| * 100)]
     | none => []) ++
    (match r.BC_AB with
     | some v => [max 0 (100 - min_fib_distance v * 100)]
     | none => []) ++
    (match r.CD_BC with
     | some v => [max 0 (100 - |v - (if |v - 2.618| < |v - 1.618| then 2.618 else 1.618)| * 50)]
     | none => []) ++
    (match r.AD_XA with
     | some v => [max 0 (100 - |v - (if |v - 1.618| < |v - 1.27| then 1.618 else 1.27)| * 100)]
     | none => [])
  if confidence_scores.length = 0 then 0
  else confidence_scores.sum / confidence_scores.length

/-- A detected pattern dict (`_find_butterfly_patterns`): `type`, the five
points, the ratio map, confidence, direction, completion time. -/
structure Pattern where
  type : String
  X : Pivot
  A : Pivot
  B : Pivot
  C : Pivot
  D : Pivot
  ratios : Ratios
  confidence : ℚ
  direction : Direction
  completion_time : Nat
deriving DecidableEq, Inhabited

/-- `HarmonicPatternDetector._is_valid_sequence(points)`. -/
def is_valid_sequence (points : List Pivot) : Bool :=
  let types := points.map Pivot.type
  decide (types = [PivotKind.low, PivotKind.high, PivotKind.low, PivotKind.high, PivotKind.low]) ||
  decide (types = [PivotKind.high, PivotKind.low, PivotKind.high, PivotKind.low, PivotKind.high])

/-- An entry/rebound zone record: `{'upper': …, 'lower': …, 'is_active': …}`. -/
structure Zone where
  upper : ℚ
  lower : ℚ
  is_active : Bool
deriving DecidableEq, Inhabited

/-- The zone dict built by `ZoneManager.create_fibonacci_zones`; every key the
code writes is a field here (the code always writes all of them). -/
structure Zones where
  pattern_id : String
  direction : Direction
  base_price : ℚ
  target_price : ℚ
  fib_236 : ℚ
  fib_382 : ℚ
  fib_500 : ℚ
  fib_618 : ℚ
  fib_786 : ℚ
  fib_886 : ℚ
  fib_1000 : ℚ
  entry_zone : Zone
  rebound_zone : Zone
deriving DecidableEq, Inhabited

/-- `ZoneManager.create_fibonacci_zones(pattern)`. -/
def create_fibonacci_zones (pattern : Pattern) : Zones :=
  let d_point := pattern.D
  let c_point := pattern.C
  let dc_distance := |d_point.price - c_point.price|
  -- price_level for a Fibonacci ratio: below D for bearish, above D for bullish
  let lvl : ℚ → ℚ := fun level =>
    match pattern.direction with
    | Direction.bearish => d_point.price - dc_distance * level
    | Direction.bullish => d_point.price + dc_distance * level
  let fib_886 := lvl 0.886
  { pattern_id := pattern.type ++ "_" ++ toString d_point.timestamp
    direction := pattern.direction
    base_price := d_point.price
    target_price := c_point.price
    fib_236 := lvl 0.236
    fib_382 := lvl 0.382
    fib_500 := lvl 0.5
    fib_618 := lvl 0.618
    fib_786 := lvl 0.786
    fib_886 := fib_886
    fib_1000 := lvl 1.0
    entry_zone := { upper := max d_point.price fib_886
                    lower := min d_point.price fib_886
                    is_active := true }
    rebound_zone := { upper := max fib_886 c_point.price
                      lower := min fib_886 c_point.price
                      is_active := true } }

/-- The last candle of a series (`df.iloc[-1]`); callers below only use it
under a nonemptiness guard, the default is junk. -/
def lastCandle (df : List Candle) : Candle :=
  df.getLastD default

/-- The `(index, price)` pairs the trendline builders collect: the subset of
{X, B, D} whose pivot kind is `'high'` (bearish) resp. `'low'` (bullish).
Both `ZoneManager.create_trendline_zones` and
`ConfirmationSystem._build_trendline` loop over `['X', 'B', 'D']` with exactly
this filter, so the collection is shared here. -/
def trendline_points (pattern : Pattern) : List Pivot :=
  match pattern.direction with
  | Direction.bearish => [pattern.X, pattern.B, pattern.D].filter fun p =>
      decide (p.type = PivotKind.high)
  | Direction.bullish => [pattern.X, pattern.B, pattern.D].filter fun p =>
      decide (p.type = PivotKind.low)

/-- `ZoneManager._calculate_trendline_slope(points)`: least-squares slope over
the (index, price) pairs; `0` when `n < 2` or the denominator vanishes. -/
def calculate_trendline_slope (points : List Pivot) : ℚ :=
  if points.length < 2 then 0
  else
    let x_values := points.map fun p => (p.index : ℚ)
    let y_values := points.map Pivot.price
    let n : ℚ := points.length
    let sum_x := x_values.sum
    let sum_y := y_values.sum
    let sum_xy := (List.zip x_values y_values).map (fun q => q.1 * q.2) |>.sum
    let sum_x2 := (x_values.map fun x => x * x).sum
    if n * sum_x2 - sum_x * sum_x = 0 then 0
    else (n * sum_xy - sum_x * sum_y) / (n * sum_x2 - sum_x * sum_x)

/-- The dict returned by `ZoneManager.create_trendline_zones` when at least two
points qualify. -/
structure ZMTrendline where
  slope : ℚ
  last_point : Pivot
  projected_price : ℚ
  touches : Nat
  is_valid : Bool
deriving DecidableEq, Inhabited

/-- `ZoneManager.create_trendline_zones(df, pattern)`; `None` when fewer than
two of {X, B, D} match the required pivot kind.  `current_index = len(df) - 1`
is a Python int, so it is taken in `ℤ` (it is `-1` on an empty series). -/
def create_trendline_zones (df : List Candle) (pattern : Pattern) : Option ZMTrendline :=
  let pts := trendline_points pattern
  if pts.length ≥ 2 then
    let slope := calculate_trendline_slope pts
    let last_point := pts.getLastD default
    let current_index : ℤ := (df.length : ℤ) - 1
    let projected_price :=
      last_point.price + slope * ((current_index : ℚ) - (last_point.index : ℚ))
    some { slope := slope
           last_point := last_point
           projected_price := projected_price
           touches := pts.length
           is_valid := decide (pts.length ≥ 3) }
  else none

/-- `ConfirmationSystem._calculate_trendline_equation(points)`: least-squares
`(slope, intercept)`;  `(0, sum_y / n)` on a vanishing denominator.  Only ever
called on a list of length ≥ 2 (so `n ≠ 0`). -/
def calculate_trendline_equation (points : List Pivot) : ℚ × ℚ :=
  let x_values := points.map fun p => (p.index : ℚ)
  let y_values := points.map Pivot.price
  let n : ℚ := points.length
  let sum_x := x_values.sum
  let sum_y := y_values.sum
  let sum_xy := (List.zip x_values y_values).map (fun q => q.1 * q.2) |>.sum
  let sum_x2 := (x_values.map fun x => x * x).sum
  if n * sum_x2 - sum_x * sum_x = 0 then (0, sum_y / n)
  else
    let slope := (n * sum_xy - sum_x * sum_y) / (n * sum_x2 - sum_x * sum_x)
    (slope, (sum_y - slope * sum_x) / n)

/-- `ConfirmationSystem._count_trendline_touches(df, slope, intercept,
direction, tolerance=0.002)`.  The Python code divides by the fitted price
itself (not its absolute value); in ℚ a division by zero yields 0 where Python
would raise — no claim below touches that degenerate case. -/
def count_trendline_touches (df : List Candle) (slope intercept : ℚ)
    (direction : Direction) : Nat :=
  (List.range df.length).countP fun (i : Nat) =>
    let trendline_price := slope * (i : ℚ) + intercept
    let candle := df.getD i default
    match direction with
    | Direction.bearish => decide (|candle.high - trendline_price| / trendline_price ≤ 0.002)
    | Direction.bullish => decide (|candle.low - trendline_price| / trendline_price ≤ 0.002)

/-- The dict returned by `ConfirmationSystem._build_trendline`. -/
structure CSTrendline where
  slope : ℚ
  intercept : ℚ
  touches : Nat
  current_price : ℚ
  points : List Pivot
deriving DecidableEq, Inhabited

/-- `ConfirmationSystem._build_trendline(df, pattern)`. -/
def build_trendline (df : List Candle) (pattern : Pattern) : Option CSTrendline :=
  let pts := trendline_points pattern
  if pts.length < 2 then none
  else
    let eq := calculate_trendline_equation pts
    let slope := eq.1
    let intercept := eq.2
    let current_index : ℤ := (df.length : ℤ) - 1
    let current_trendline_price := slope * (current_index : ℚ) + intercept
    some { slope := slope
           intercept := intercept
           touches := count_trendline_touches df slope intercept pattern.direction
           current_price := current_trendline_price
           points := pts }

/-- Result of `ConfirmationSystem._check_5m_candle_confirmation`. -/
structure CandleConf where
  confirmed : Bool
  close_price : Option ℚ
deriving DecidableEq, Inhabited

/-- `ConfirmationSystem._check_5m_candle_confirmation(df_5m, zones)`.
The Python guard `if not fib_886 or not direction` is a falsiness test: the
direction string is never empty, but a level equal to `0.0` is falsy. -/
def check_5m_candle_confirmation (df_5m : List Candle) (zones : Zones) : CandleConf :=
  if df_5m.length < 2 then { confirmed := false, close_price := none }
  else
    let last_candle := lastCandle df_5m
    let fib_886 := zones.fib_886
    if fib_886 = 0 then { confirmed := false, close_price := none }
    else
      let confirmed :=
        match zones.direction with
        | Direction.bearish => decide (last_candle.close < fib_886)
        | Direction.bullish => decide (fib_886 < last_candle.close)
      { confirmed := confirmed, close_price := some last_candle.close }

/-- `ConfirmationSystem._check_trendline_break(df_5m, trendline_data, direction)`. -/
def check_trendline_break (df_5m : List Candle) (trendline_data : CSTrendline)
    (direction : Direction) : Bool :=
  if df_5m.length < 1 then false
  else
    let last_candle := lastCandle df_5m
    match direction with
    | Direction.bearish => decide (trendline_data.current_price < last_candle.close)
    | Direction.bullish => decide (last_candle.close < trendline_data.current_price)

/-- `ConfirmationSystem._check_trendline_confirmation(...)`, reduced to the
`break_confirmed` flag the caller consumes. -/
def check_trendline_confirmation (df_1h df_5m : List Candle) (pattern : Pattern)
    (_zones : Zones) : Bool :=
  match build_trendline df_1h pattern with
  | none => false
  | some trendline_data =>
    if trendline_data.touches < 3 then false
    else check_trendline_break df_5m trendline_data pattern.direction

/-- `ConfirmationSystem._check_zone_break_confirmation(df_5m, zones)`, reduced
to the `zone_broken` flag.  (`entry_zone` is a nonempty dict and `direction` a
nonempty string, so the falsiness guard on them never fires.) -/
def check_zone_break_confirmation (df_5m : List Candle) (zones : Zones) : Bool :=
  if df_5m.length < 1 then false
  else
    let last_candle := lastCandle df_5m
    match zones.direction with
    | Direction.bearish => decide (last_candle.close < zones.entry_zone.lower)
    | Direction.bullish => decide (zones.entry_zone.upper < last_candle.close)

/-- The confirmations dict built by
`ConfirmationSystem.check_entry_confirmations`. -/
structure Confirmations where
  candle_5m_confirmation : Bool
  trendline_break : Bool
  zone_break : Bool
  total_score : Nat
  entry_signal : Bool
  entry_direction : Option String
  entry_price : Option ℚ
deriving DecidableEq, Inhabited

/-- `ConfirmationSystem.check_entry_confirmations(df_1h, df_5m, pattern,
zones)`.  `entry_price` is set to the confirming 5m close when gate 1 fires;
on a fired signal the Python falsiness test `if not confirmations['entry_price']`
(true for `None` and for `0.0`) falls back to the latest 5m close. -/
def check_entry_confirmations (df_1h df_5m : List Candle) (pattern : Pattern)
    (zones : Zones) : Confirmations :=
  let candle_conf := check_5m_candle_confirmation df_5m zones
  let price₁ : Option ℚ := if candle_conf.confirmed then candle_conf.close_price else none
  let trendline_break := check_trendline_confirmation df_1h df_5m pattern zones
  let zone_break := check_zone_break_confirmation df_5m zones
  let total_score : Nat :=
    (if candle_conf.confirmed then 1 else 0) +
    (if trendline_break then 1 else 0) +
    (if zone_break then 1 else 0)
  if 3 ≤ total_score then
    { candle_5m_confirmation := candle_conf.confirmed
      trendline_break := trendline_break
      zone_break := zone_break
      total_score := total_score
      entry_signal := true
      entry_direction := some (if pattern.direction = Direction.bearish then "SELL" else "BUY")
      entry_price :=
        match price₁ with
        | none => some (lastCandle df_5m).close
        | some v => if v = 0 then some (lastCandle df_5m).close else some v }
  else
    { candle_5m_confirmation := candle_conf.confirmed
      trendline_break := trendline_break
      zone_break := zone_break
      total_score := total_score
      entry_signal := false
      entry_direction := none
      entry_price := price₁ }

/-- `Config.SYMBOL` with its default platform symbol. -/
def ConfigSYMBOL : String := "BTCUSDT"

/-- A take-profit leg record as stored in `position['tp_orders']`.
`executed` defaults to `False` (the Python dict simply lacks the key until a
fill is handled) and `execution_price` to absent. -/
structure TPOrder where
  order_id : Option String
  price : ℚ
  size : ℚ
  level : Nat
  executed : Bool
  execution_price : Option ℚ
deriving DecidableEq, Inhabited

/-- A position dict as created by `PositionManager.execute_entry_signal`. -/
structure Position where
  id : String
  symbol : String
  direction : String
  entry_price : ℚ
  position_size : ℚ
  stop_loss : ℚ
  take_profits : List ℚ
  entry_time : Nat
  pattern : Pattern
  zones : Zones
  status : String
  entry_order_id : Option String
  stop_order_id : Option String
  tp_orders : List TPOrder
  close_reason : Option String
  close_time : Option Nat
deriving DecidableEq, Inhabited

/-- The venue calls the manager makes, recorded as an explicit trace so that
"no order is placed" and "PnL is realized/notified" are statable. -/
inductive VenueAction where
  | marketOrder (symbol side : String) (size : ℚ)
  | stopOrder (symbol side : String) (size : ℚ) (price : ℚ)
  | limitOrder (symbol side : String) (size : ℚ) (price : ℚ)
  | cancelOrder (order_id : Option String) (symbol : String)
  | notifyTradeExit (symbol direction : String) (entry exit_price size pnl : ℚ)
      (reason : String)
deriving DecidableEq

/-- The exchange-connector oracle: the responses the venue would give during
one call.  Each field corresponds to one `ExchangeConnector` method. -/
structure Exchange where
  balance : ℚ
  risk_amount : ℚ → ℚ
  size_for : ℚ → ℚ → ℚ → ℚ
  market_order_id : Option String
  stop_order_result : Option String
  limit_order_result : Nat → Option String
  current_price : ℚ
  open_orders : List String

/-- The manager's `self.active_positions` registry (a dict keyed by position
id; modelled as the insertion-ordered association list). -/
structure ManagerState where
  active_positions : List (String × Position)

/-- `PositionManager._calculate_stop_loss(pattern, zones)`:
`buffer = D.price * 0.0005`, placed beyond D against the trade. -/
def calculate_stop_loss (pattern : Pattern) : ℚ :=
  let d_point := pattern.D
  let buffer := d_point.price * 0.0005
  match pattern.direction with
  | Direction.bearish => d_point.price + buffer
  | Direction.bullish => d_point.price - buffer

/-- `PositionManager._calculate_take_profits(pattern, zones)`: the three
retracement levels (all present on every zone record) plus the C price, sorted
ascending for bearish / descending for bullish (`list.sort` is modelled by
`insertionSort`, also a stable sort), truncated to 3. -/
def calculate_take_profits (pattern : Pattern) (zones : Zones) : List ℚ :=
  let targets := [zones.fib_618, zones.fib_500, zones.fib_382] ++ [pattern.C.price]
  let sorted :=
    match pattern.direction with
    | Direction.bearish => targets.insertionSort fun a b => a ≤ b
    | Direction.bullish => targets.insertionSort fun a b => b ≤ a
  sorted.take 3

/-- `PositionManager._calculate_position_size(entry_price, stop_loss)`
(balance lookup, risk amount and venue sizing are oracle calls). -/
def calculate_position_size (ex : Exchange) (entry_price stop_loss : ℚ) : ℚ :=
  ex.size_for (ex.risk_amount ex.balance) entry_price stop_loss

/-- `PositionManager._place_take_profits(position)`: one limit order per level,
each of size `total / len(take_profits)`; a leg is recorded only when the venue
returns an order.  Returns the recorded legs and the emitted venue calls. -/
def place_take_profits (ex : Exchange) (position : Position) :
    List TPOrder × List VenueAction :=
  let tp_side := if position.direction = "BUY" then "sell" else "buy"
  let tp_size := position.position_size / (position.take_profits.length : ℚ)
  let legs := position.take_profits.enum.map fun iq =>
    (VenueAction.limitOrder position.symbol tp_side tp_size iq.2,
     match ex.limit_order_result iq.1 with
     | some oid => [{ order_id := some oid
                      price := iq.2
                      size := tp_size
                      level := iq.1 + 1
                      executed := false
                      execution_price := none : TPOrder }]
     | none => [])
  (legs.flatMap Prod.snd, legs.map Prod.fst)

/-- `PositionManager.execute_entry_signal(pattern, zones, confirmations)`:
returns the success flag, the updated registry and the venue-call trace.
`now` stands for `datetime.now()` (id suffix and entry time). -/
def execute_entry_signal (ex : Exchange) (now : Nat) (pattern : Pattern)
    (zones : Zones) (confirmations : Confirmations) (st : ManagerState) :
    Bool × ManagerState × List VenueAction :=
  if confirmations.entry_signal = false then (false, st, [])
  else
    let symbol := ConfigSYMBOL
    let direction := confirmations.entry_direction.getD ""
    let entry_price := (confirmations.entry_price).getD 0
    let stop_loss := calculate_stop_loss pattern
    let take_profits := calculate_take_profits pattern zones
    let position_size := calculate_position_size ex entry_price stop_loss
    if position_size ≤ 0 then (false, st, [])
    else
      let side := if direction = "BUY" then "buy" else "sell"
      let entry_act := VenueAction.marketOrder symbol side position_size
      match ex.market_order_id with
      | none => (false, st, [entry_act])
      | some entry_id =>
        let position_id := pattern.type ++ "_" ++ toString now
        let stop_side := if direction = "BUY" then "sell" else "buy"
        let stop_act := VenueAction.stopOrder symbol stop_side position_size stop_loss
        let position₀ : Position :=
          { id := position_id
            symbol := symbol
            direction := direction
            entry_price := entry_price
            position_size := position_size
            stop_loss := stop_loss
            take_profits := take_profits
            entry_time := now
            pattern := pattern
            zones := zones
            status := "ACTIVE"
            entry_order_id := some entry_id
            stop_order_id := ex.stop_order_result
            tp_orders := []
            close_reason := none
            close_time := none }
        let tps := place_take_profits ex position₀
        let position := { position₀ with tp_orders := tps.1 }
        (true,
         { active_positions := st.active_positions ++ [(position_id, position)] },
         [entry_act, stop_act] ++ tps.2)

/-- `len([p for p in self.active_positions.values() if p['status'] == 'ACTIVE'])`. -/
def get_active_positions_count (st : ManagerState) : Nat :=
  (st.active_positions.filter fun q => decide (q.2.status = "ACTIVE")).length

/-- `HarmonicTradingBot._handle_entry_signal` (main.py): the capacity check
before delegating to `execute_entry_signal`. -/
def handle_entry_signal (max_positions : Nat) (ex : Exchange) (now : Nat)
    (pattern : Pattern) (zones : Zones) (confirmations : Confirmations)
    (st : ManagerState) : ManagerState × List VenueAction :=
  if max_positions ≤ get_active_positions_count st then (st, [])
  else
    let res := execute_entry_signal ex now pattern zones confirmations st
    (res.2.1, res.2.2)

/-- Partial PnL of a take-profit fill (`_handle_take_profit_hit`). -/
def tp_pnl (position : Position) (tp : TPOrder) : ℚ :=
  if position.direction = "BUY" then (tp.price - position.entry_price) * tp.size
  else (position.entry_price - tp.price) * tp.size

/-- `PositionManager._cancel_remaining_orders(position)`: cancel every
non-executed take-profit leg, then the stop order if set. -/
def cancel_remaining_orders (position : Position) : List VenueAction :=
  ((position.tp_orders.filter fun tp => !tp.executed).map fun tp =>
    VenueAction.cancelOrder tp.order_id position.symbol) ++
  (match position.stop_order_id with
   | some sid => [VenueAction.cancelOrder (some sid) position.symbol]
   | none => [])

/-- `PositionManager._check_position_status(position)`: first treat every
take-profit leg whose order id is no longer open as filled (mark it executed
at the current price, notify its proportional PnL), then, if the stop order id
is set and no longer open, close the position with reason `'STOP_LOSS'`,
notify the full-size PnL at the stop price, and cancel the remaining legs.
`now` stands for `datetime.now()` (the close timestamp). -/
def check_position_status (ex : Exchange) (now : Nat) (position : Position) :
    Position × List VenueAction :=
  let open_order_ids := ex.open_orders
  let tpRes := position.tp_orders.map fun tp =>
    let is_open :=
      match tp.order_id with
      | some oid => decide (oid ∈ open_order_ids)
      | none => false
    if is_open then (tp, ([] : List VenueAction))
    else ({ tp with executed := true, execution_price := some ex.current_price },
          [VenueAction.notifyTradeExit position.symbol position.direction
             position.entry_price tp.price tp.size (tp_pnl position tp)
             ("Take Profit " ++ toString tp.level ++ " atteint")])
  let position₁ := { position with tp_orders := tpRes.map Prod.fst }
  let tpActs := tpRes.flatMap Prod.snd
  match position.stop_order_id with
  | none => (position₁, tpActs)
  | some sid =>
    if sid ∈ open_order_ids then (position₁, tpActs)
    else
      let pnl :=
        if position.direction = "BUY" then
          (position.stop_loss - position.entry_price) * position.position_size
        else (position.entry_price - position.stop_loss) * position.position_size
      let position₂ := { position₁ with
        status := "CLOSED"
        close_reason := some "STOP_LOSS"
        close_time := some now }
      (position₂,
       tpActs ++
       [VenueAction.notifyTradeExit position.symbol position.direction
          position.entry_price position.stop_loss position.position_size pnl
          "Stop Loss atteint"] ++
       cancel_remaining_orders position₂)

/-- `PositionManager.monitor_positions()`: iterate the registry in insertion
order; each position is processed by `_check_position_status` inside its own
`try/except`.  `failing pid = true` models an exception surfacing for that
position (e.g. the venue price/open-orders lookup raising, which happens
before any mutation); it is caught and the loop continues with the next
position unchanged. -/
def monitor_positions (ex : Exchange) (now : Nat) (failing : String → Bool)
    (st : ManagerState) : ManagerState × List VenueAction :=
  let results := st.active_positions.map fun q =>
    if failing q.1 then (q, ([] : List VenueAction))
    else
      let r := check_position_status ex now q.2
      ((q.1, r.1), r.2)
  ({ active_positions := results.map Prod.fst }, results.flatMap Prod.snd)

/-- The removal test of `PositionManager.cleanup_old_positions`: status
`'CLOSED'`, a close timestamp present, and older than the cutoff. -/
def is_stale (cutoff : Nat) (position : Position) : Bool :=
  decide (position.status = "CLOSED") &&
  (match position.close_time with
   | some t => decide (t < cutoff)
   | none => false)

/-- `PositionManager.cleanup_old_positions(days)` with
`cutoff = datetime.now() - timedelta(days=days)`; time is modelled in day
ticks, so the cutoff is `now - days` (truncated ℕ subtraction). -/
def cleanup_old_positions (now days : Nat) (st : ManagerState) : ManagerState :=
  let cutoff := now - days
  { active_positions := st.active_positions.filter fun q => !is_stale cutoff q.2 }

/-! ## Shared concrete examples (used by witnesses and counterexamples) -/

/-- A bearish pattern with `D.price = 100`, `C.price = 90` (the spec's
ZoneCalculator determinism example). -/
def pat100 : Pattern :=
  { type := "butterfly"
    X := { index := 0, price := 120, type := PivotKind.high, timestamp := 0 }
    A := { index := 1, price := 80, type := PivotKind.low, timestamp := 1 }
    B := { index := 2, price := 110, type := PivotKind.high, timestamp := 2 }
    C := { index := 3, price := 90, type := PivotKind.low, timestamp := 3 }
    D := { index := 4, price := 100, type := PivotKind.high, timestamp := 4 }
    ratios := { AB_XA := none, AD_XA := none, BC_AB := none, CD_BC := none }
    confidence := 0
    direction := Direction.bearish
    completion_time := 4 }

/-- `pat100` with the zone-irrelevant fields changed (used to witness that the
zone levels depend only on D, C and the direction). -/
def pat100' : Pattern :=
  { pat100 with type := "butterfly2", confidence := 55, completion_time := 9 }

/-- A baseline active position. -/
def pos0 : Position :=
  { id := "p0"
    symbol := "BTCUSDT"
    direction := "BUY"
    entry_price := 10
    position_size := 2
    stop_loss := 8
    take_profits := [11]
    entry_time := 0
    pattern := pat100
    zones := create_fibonacci_zones pat100
    status := "ACTIVE"
    entry_order_id := some "e0"
    stop_order_id := some "s0"
    tp_orders := [{ order_id := some "t0", price := 30, size := 1, level := 1,
                    executed := false, execution_price := none }]
    close_reason := none
    close_time := none }

/-- `pos0` after a stop-loss close at time 0. -/
def pos1 : Position :=
  { pos0 with
      id := "p1"
      status := "CLOSED"
      close_reason := some "STOP_LOSS"
      close_time := some 0 }

/-- A registry holding one active and one closed position. -/
def st0 : ManagerState :=
  { active_positions := [("p0", pos0), ("p1", pos1)] }

/-- An exchange oracle that answers nothing useful. -/
def exch0 : Exchange :=
  { balance := 0
    risk_amount := fun _ => 0
    size_for := fun _ _ _ => 0
    market_order_id := none
    stop_order_result := none
    limit_order_result := fun _ => none
    current_price := 0
    open_orders := [] }

/-! ## C4 — Fibonacci zone determinism -/

/-- C4: building Fibonacci zones from a bearish pattern with `D.price = 100`
and `C.price = 90` yields `fib_618 = 93.82`, `fib_886 = 91.14` and the entry
zone `[91.14, 100]`; and for every pair of patterns agreeing on
`(D.price, C.price, direction)` all zone level prices (the seven Fibonacci
levels, the entry zone and the rebound zone bounds, the base and target
prices) coincide — the computation is a pure function of those three inputs. -/
theorem fibonacci_zone_levels (p q : Pattern)
    (hD : p.D.price = q.D.price) (hC : p.C.price = q.C.price)
    (hdir : p.direction = q.direction) :
    ((create_fibonacci_zones pat100).fib_618 = 93.82 ∧
     (create_fibonacci_zones pat100).fib_886 = 91.14 ∧
     (create_fibonacci_zones pat100).entry_zone.lower = 91.14 ∧
     (create_fibonacci_zones pat100).entry_zone.upper = 100) ∧
    ((create_fibonacci_zones p).fib_236 = (create_fibonacci_zones q).fib_236 ∧
     (create_fibonacci_zones p).fib_382 = (create_fibonacci_zones q).fib_382 ∧
     (create_fibonacci_zones p).fib_500 = (create_fibonacci_zones q).fib_500 ∧
     (create_fibonacci_zones p).fib_618 = (create_fibonacci_zones q).fib_618 ∧
     (create_fibonacci_zones p).fib_786 = (create_fibonacci_zones q).fib_786 ∧
     (create_fibonacci_zones p).fib_886 = (create_fibonacci_zones q).fib_886 ∧
     (create_fibonacci_zones p).fib_1000 = (create_fibonacci_zones q).fib_1000 ∧
     (create_fibonacci_zones p).entry_zone = (create_fibonacci_zones q).entry_zone ∧
     (create_fibonacci_zones p).rebound_zone = (create_fibonacci_zones q).rebound_zone ∧
     (create_fibonacci_zones p).base_price = (create_fibonacci_zones q).base_price ∧
     (create_fibonacci_zones p).target_price = (create_fibonacci_zones q).target_price) := by
  constructor
  · refine ⟨?_, ?_, ?_, ?_⟩ <;>
      norm_num [create_fibonacci_zones, pat100, abs_of_nonneg]
  · simp [create_fibonacci_zones, hD, hC, hdir]

/-- Witness for C4: the two hypotheses hold for `pat100` and its variant
`pat100'` (same D, C, direction; different type, confidence, timestamps), and
the zone levels indeed coincide. -/
theorem fibonacci_zone_levels_witness :
    (create_fibonacci_zones pat100).fib_886 = 91.14 ∧
    (create_fibonacci_zones pat100).fib_886 = (create_fibonacci_zones pat100').fib_886 := by
  have h := fibonacci_zone_levels pat100 pat100' rfl rfl rfl
  exact ⟨h.1.2.1, h.2.2.2.2.2.2.1⟩


/-! ## C5 — capacity check rejects without placing orders -/

/-- C5: handling a confirmed entry signal while the number of Active positions
already reaches the configured maximum performs no venue call and leaves the
registry unchanged — same state, hence the same position-id list and count. -/
theorem open_rejected_at_capacity (max_positions : Nat) (ex : Exchange)
    (now : Nat) (pattern : Pattern) (zones : Zones)
    (confirmations : Confirmations) (st : ManagerState)
    (hfull : max_positions ≤ get_active_positions_count st) :
    handle_entry_signal max_positions ex now pattern zones confirmations st = (st, []) ∧
    (handle_entry_signal max_positions ex now pattern zones confirmations st).1.active_positions.map
        Prod.fst = st.active_positions.map Prod.fst ∧
    (handle_entry_signal max_positions ex now pattern zones confirmations st).1.active_positions.length
      = st.active_positions.length := by
  have h : handle_entry_signal max_positions ex now pattern zones confirmations st = (st, []) := by
    unfold handle_entry_signal
    rw [if_pos hfull]
  exact ⟨h, by rw [h], by rw [h]⟩

/-- Witness for C5: with a one-position registry (`st0` holds one Active and
one Closed position) and a configured maximum of 1, the handler returns the
registry untouched and the venue trace is empty. -/
theorem open_rejected_at_capacity_witness :
    handle_entry_signal 1 exch0 5 pat100 (create_fibonacci_zones pat100)
      { candle_5m_confirmation := true, trendline_break := true, zone_break := true,
        total_score := 3, entry_signal := true, entry_direction := some "BUY",
        entry_price := some 10 } st0 = (st0, []) :=
  (open_rejected_at_capacity 1 exch0 5 pat100 (create_fibonacci_zones pat100) _ st0
    (by decide)).1

/-! ## C8 — cleanup removes exactly the stale closed positions -/

/-- C8: `cleanup_old_positions` keeps exactly the entries that are not
(Closed with a close timestamp older than the cutoff `now - days`); Active
positions always survive; and a second run with the same cutoff removes
nothing further. -/
theorem cleanup_exact_and_idempotent (now days : Nat) (st : ManagerState) :
    (∀ (pid : String) (p : Position),
      (pid, p) ∈ (cleanup_old_positions now days st).active_positions ↔
        ((pid, p) ∈ st.active_positions ∧
          ¬(p.status = "CLOSED" ∧ ∃ t, p.close_time = some t ∧ t < now - days))) ∧
    (∀ (pid : String) (p : Position),
      (pid, p) ∈ st.active_positions → p.status = "ACTIVE" →
        (pid, p) ∈ (cleanup_old_positions now days st).active_positions) ∧
    cleanup_old_positions now days (cleanup_old_positions now days st) =
      cleanup_old_positions now days st := by
  have hstale : ∀ p : Position, is_stale (now - days) p = true ↔
      (p.status = "CLOSED" ∧ ∃ t, p.close_time = some t ∧ t < now - days) := by
    intro p
    unfold is_stale
    cases h : p.close_time <;> simp [h]
  refine ⟨?_, ?_, ?_⟩
  · intro pid p
    simp only [cleanup_old_positions, List.mem_filter, Bool.not_eq_true', ← Bool.not_eq_true,
      hstale]
  · intro pid p hmem hact
    simp only [cleanup_old_positions, List.mem_filter, Bool.not_eq_true', ← Bool.not_eq_true,
      hstale]
    refine ⟨hmem, ?_⟩
    rintro ⟨hclosed, -⟩
    rw [hact] at hclosed
    exact absurd hclosed (by decide)
  · simp [cleanup_old_positions, List.filter_filter]

/-- Witness for C8: in `st0` (one Active, one stale Closed position) the
Active position `p0` survives cleanup with `now = 10`, `days = 3`. -/
theorem cleanup_exact_and_idempotent_witness :
    ("p0", pos0) ∈ (cleanup_old_positions 10 3 st0).active_positions :=
  (cleanup_exact_and_idempotent 10 3 st0).2.1 "p0" pos0 (List.mem_cons_self _ _) rfl

/-! ## C2 — ratio guards and the 3-of-4 butterfly acceptance -/

/-- `List.count true [decide P]` as an if-expression. -/
theorem count_true_decide_singleton (P : Prop) [Decidable P] :
    List.count true [decide P] = if P then 1 else 0 := by
  by_cases h : P <;> simp [h]

/-- C2: for an alternating 5-pivot window, each ratio is present in the map
iff its denominator segment is non-zero (and then equals the quotient — a zero
denominator omits the entry, it is never divided), and the candidate is a
butterfly exactly when at least 3 of the 4 banded ratio checks (bands widened
by the absolute tolerance 0.05) hold. -/
theorem butterfly_ratio_gate (x a b c d : Pivot)
    (_hseq : is_valid_sequence [x, a, b, c, d] = true) :
    ((calculate_ratios x a b c d).AB_XA =
        if |a.price - x.price| = 0 then none
        else some (|b.price - a.price| / |a.price - x.price|)) ∧
    ((calculate_ratios x a b c d).AD_XA =
        if |a.price - x.price| = 0 then none
        else some (|d.price - a.price| / |a.price - x.price|)) ∧
    ((calculate_ratios x a b c d).BC_AB =
        if |b.price - a.price| = 0 then none
        else some (|c.price - b.price| / |b.price - a.price|)) ∧
    ((calculate_ratios x a b c d).CD_BC =
        if |c.price - b.price| = 0 then none
        else some (|d.price - c.price| / |c.price - b.price|)) ∧
    (is_butterfly_pattern (calculate_ratios x a b c d) = true ↔
      3 ≤ ((if |a.price - x.price| ≠ 0 ∧
              |(|b.price - a.price| / |a.price - x.price|) - 0.786| ≤ 0.05 then 1 else 0) +
           (if |b.price - a.price| ≠ 0 ∧
              0.382 - 0.05 ≤ |c.price - b.price| / |b.price - a.price| ∧
              |c.price - b.price| / |b.price - a.price| ≤ 0.886 + 0.05 then 1 else 0) +
           (if |c.price - b.price| ≠ 0 ∧
              1.618 - 0.05 ≤ |d.price - c.price| / |c.price - b.price| ∧
              |d.price - c.price| / |c.price - b.price| ≤ 2.618 + 0.05 then 1 else 0) +
           (if |a.price - x.price| ≠ 0 ∧
              1.27 - 0.05 ≤ |d.price - a.price| / |a.price - x.price| ∧
              |d.price - a.price| / |a.price - x.price| ≤ 1.618 + 0.05 then 1 else 0) : Nat)) := by
  refine ⟨rfl, rfl, rfl, rfl, ?_⟩
  by_cases hxa : |a.price - x.price| = 0 <;>
    by_cases hab : |b.price - a.price| = 0 <;>
      by_cases hbc : |c.price - b.price| = 0 <;>
        (simp [is_butterfly_pattern, calculate_ratios, is_ratio_valid, tolerance, hxa, hab, hbc,
          List.count_append, List.count_cons, count_true_decide_singleton] <;>
         split_ifs <;> omega)

/-- Witness for C2: an alternating (Bullish-template) window whose prices hit
the template ratios AB/XA = 0.786, BC/AB = 0.618, CD/BC = 2, AD/XA ≈ 1.27 is
accepted. -/
def pivX2 : Pivot := { index := 0, price := 0, type := PivotKind.low, timestamp := 0 }

def pivA2 : Pivot := { index := 10, price := 1000, type := PivotKind.high, timestamp := 10 }

def pivB2 : Pivot := { index := 20, price := 214, type := PivotKind.low, timestamp := 20 }

def pivC2 : Pivot := { index := 30, price := 699.748, type := PivotKind.high, timestamp := 30 }

def pivD2 : Pivot := { index := 40, price := -271.748, type := PivotKind.low, timestamp := 40 }

/-- Witness for C2. -/
theorem butterfly_ratio_gate_witness :
    is_butterfly_pattern (calculate_ratios pivX2 pivA2 pivB2 pivC2 pivD2) = true := by
  refine ((butterfly_ratio_gate pivX2 pivA2 pivB2 pivC2 pivD2 (by decide)).2.2.2.2).mpr ?_
  norm_num [pivX2, pivA2, pivB2, pivC2, pivD2, abs_eq_max_neg, max_def]

/-! ## C3 — confidence scoring: cutoff targets, not nearest targets -/

/-- C3 counterexample: for the ratio map holding only `CD_BC = 2.05` (inside
the window `(2, 2.118)` where the cutoff rule and the nearest-target rule
disagree), the code scores against 2.618 and yields 71.6, while the claimed
nearest-target rule scores against 1.618 and yields 78.4. -/
theorem confidence_nearest_counterexample :
    calculate_confidence { AB_XA := none, AD_XA := none, BC_AB := none, CD_BC := some 2.05 }
        = 71.6 ∧
    confidence_spec_nearest { AB_XA := none, AD_XA := none, BC_AB := none, CD_BC := some 2.05 }
        = 78.4 ∧
    (71.6 : ℚ) ≠ 78.4 := by
  refine ⟨?_, ?_, by norm_num⟩ <;>
    norm_num [calculate_confidence, confidence_spec_nearest, abs_eq_max_neg, max_def]

/-- The per-ratio `CD_BC` distances of the cutoff rule (`> 2.0`) and of the
nearest-target rule agree whenever the ratio avoids the window `(2, 2.118)`. -/
theorem cd_target_distance_eq (v : ℚ) (h : v ≤ 2 ∨ 2.118 ≤ v) :
    |v - (if 2 < v then (2.618 : ℚ) else 1.618)| =
      |v - (if |v - 2.618| < |v - 1.618| then (2.618 : ℚ) else 1.618)| := by
  rcases h with h | h
  · rw [if_neg (by linarith), if_neg]
    rcases abs_cases (v - 2.618) with ⟨h1, h2⟩ | ⟨h1, h2⟩ <;>
      rcases abs_cases (v - 1.618) with ⟨h3, h4⟩ | ⟨h3, h4⟩ <;> linarith
  · rw [if_pos (by linarith)]
    by_cases hc : |v - 2.618| < |v - 1.618|
    · rw [if_pos hc]
    · rw [if_neg hc]
      have hle : |v - 2.618| ≤ |v - 1.618| := by
        rcases abs_cases (v - 2.618) with ⟨h1, h2⟩ | ⟨h1, h2⟩ <;>
          rcases abs_cases (v - 1.618) with ⟨h3, h4⟩ | ⟨h3, h4⟩ <;> linarith
      exact le_antisymm hle (le_of_not_lt hc)

/-- Same for `AD_XA`: cutoff `> 1.4` vs nearest of {1.27, 1.618}, window
`(1.4, 1.444)`. -/
theorem ad_target_distance_eq (v : ℚ) (h : v ≤ 1.4 ∨ 1.444 ≤ v) :
    |v - (if 1.4 < v then (1.618 : ℚ) else 1.27)| =
      |v - (if |v - 1.618| < |v - 1.27| then (1.618 : ℚ) else 1.27)| := by
  rcases h with h | h
  · rw [if_neg (by linarith), if_neg]
    rcases abs_cases (v - 1.618) with ⟨h1, h2⟩ | ⟨h1, h2⟩ <;>
      rcases abs_cases (v - 1.27) with ⟨h3, h4⟩ | ⟨h3, h4⟩ <;> linarith
  · rw [if_pos (by linarith)]
    by_cases hc : |v - 1.618| < |v - 1.27|
    · rw [if_pos hc]
    · rw [if_neg hc]
      have hle : |v - 1.618| ≤ |v - 1.27| := by
        rcases abs_cases (v - 1.618) with ⟨h1, h2⟩ | ⟨h1, h2⟩ <;>
          rcases abs_cases (v - 1.27) with ⟨h3, h4⟩ | ⟨h3, h4⟩ <;> linarith
      exact le_antisymm hle (le_of_not_lt hc)

/-- C3 amended: the per-ratio scores are `max(0, 100 − distance*scale)` and
the confidence is the mean of the scores present, but the two-target ratios
are scored by cutoff (2.618 iff `CD_BC > 2.0`; 1.618 iff `AD_XA > 1.4`), which
coincides with the claimed nearest-target rule exactly when `CD_BC` avoids
`(2, 2.118)` and `AD_XA` avoids `(1.4, 1.444)` — under those provisos the
claim holds as stated. -/
theorem confidence_nearest_amended (r : Ratios)
    (hcd : ∀ v, r.CD_BC = some v → v ≤ 2 ∨ 2.118 ≤ v)
    (had : ∀ v, r.AD_XA = some v → v ≤ 1.4 ∨ 1.444 ≤ v) :
    calculate_confidence r = confidence_spec_nearest r := by
  rcases r with ⟨ab, ad, bc, cd⟩
  have hcd2 : ∀ v, cd = some v → v ≤ 2 ∨ 2.118 ≤ v := hcd
  have had2 : ∀ v, ad = some v → v ≤ 1.4 ∨ 1.444 ≤ v := had
  cases cd with
  | none =>
    cases ad with
    | none => rfl
    | some w =>
      simp only [calculate_confidence, confidence_spec_nearest]
      rw [ad_target_distance_eq w (had2 w rfl)]
  | some v =>
    cases ad with
    | none =>
      simp only [calculate_confidence, confidence_spec_nearest]
      rw [cd_target_distance_eq v (hcd2 v rfl)]
    | some w =>
      simp only [calculate_confidence, confidence_spec_nearest]
      rw [cd_target_distance_eq v (hcd2 v rfl), ad_target_distance_eq w (had2 w rfl)]

/-- Witness for C3 (amended): a full ratio map with `CD_BC = 2` and
`AD_XA = 1.5`, both outside the disagreement windows. -/
theorem confidence_nearest_amended_witness :
    calculate_confidence
        { AB_XA := some 0.786, AD_XA := some 1.5, BC_AB := some 0.618, CD_BC := some 2 } =
      confidence_spec_nearest
        { AB_XA := some 0.786, AD_XA := some 1.5, BC_AB := some 0.618, CD_BC := some 2 } :=
  confidence_nearest_amended _
    (fun v hv => by simp at hv; subst hv; norm_num)
    (fun v hv => by simp at hv; subst hv; norm_num)

/-! ## C7 — take-profit list and even size split -/

instance : IsTotal ℚ (fun a b : ℚ => b ≤ a) := ⟨fun a b => le_total b a⟩

instance : IsTrans ℚ (fun a b : ℚ => b ≤ a) := ⟨fun _ _ _ h1 h2 => le_trans h2 h1⟩

/-- An element below (w.r.t. `r`) every member of `l` survives sorting and
truncation to the first three entries. -/
theorem mem_take_three_insertionSort (r : ℚ → ℚ → Prop) [DecidableRel r]
    [IsTotal ℚ r] [IsTrans ℚ r] (hanti : ∀ x y, r x y → r y x → x = y)
    (l : List ℚ) (v : ℚ) (hv : v ∈ l) (hmin : ∀ x ∈ l, r v x) :
    v ∈ (l.insertionSort r).take 3 := by
  have hperm := List.perm_insertionSort r l
  have hsorted := List.sorted_insertionSort r l
  obtain ⟨a, rest, hcons⟩ : ∃ a rest, l.insertionSort r = a :: rest := by
    cases h : l.insertionSort r with
    | nil =>
      rw [h] at hperm
      rw [← hperm.nil_eq] at hv
      exact absurd hv (List.not_mem_nil v)
    | cons a rest => exact ⟨a, rest, rfl⟩
  have hva : r v a := hmin a (hperm.mem_iff.mp (hcons ▸ List.mem_cons_self a rest))
  have hvmem : v ∈ a :: rest := hcons ▸ hperm.mem_iff.mpr hv
  rw [hcons, List.take_succ_cons]
  rcases List.mem_cons.mp hvmem with hva' | hvrest
  · rw [hva']
    exact List.mem_cons_self _ _
  · have hav : r a v := by
      rw [hcons] at hsorted
      exact List.rel_of_sorted_cons hsorted v hvrest
    rw [hanti v a hva hav]
    exact List.mem_cons_self _ _

/-- C7 counterexample pattern: a Bearish-template, direction-consistent
pattern whose C price (30) is above its D price (10); the sorted-ascending
truncation that keeps three of the four targets then drops C. -/
def pat_c7 : Pattern :=
  { type := "butterfly"
    X := { index := 0, price := 40, type := PivotKind.high, timestamp := 0 }
    A := { index := 10, price := 5, type := PivotKind.low, timestamp := 10 }
    B := { index := 20, price := 34, type := PivotKind.high, timestamp := 20 }
    C := { index := 30, price := 30, type := PivotKind.low, timestamp := 30 }
    D := { index := 40, price := 10, type := PivotKind.high, timestamp := 40 }
    ratios := { AB_XA := none, AD_XA := none, BC_AB := none, CD_BC := none }
    confidence := 0
    direction := Direction.bearish
    completion_time := 40 }

/-- C7 counterexample: `pat_c7` satisfies the Bearish alternation template and
the derived-direction invariant, yet its take-profit list does not contain the
C price — the list is not "non-empty and containing C" as claimed; the C price
is dropped by the `targets[:3]` truncation because C lies above D. -/
theorem take_profits_counterexample :
    is_valid_sequence [pat_c7.X, pat_c7.A, pat_c7.B, pat_c7.C, pat_c7.D] = true ∧
    pat_c7.direction =
      (if pat_c7.D.type = PivotKind.high then Direction.bearish else Direction.bullish) ∧
    pat_c7.C.price ∉ calculate_take_profits pat_c7 (create_fibonacci_zones pat_c7) := by
  refine ⟨by decide, by decide, ?_⟩
  norm_num [calculate_take_profits, create_fibonacci_zones, pat_c7, List.insertionSort,
    List.orderedInsert, abs_eq_max_neg, max_def, min_def]

/-- C7 amended: the take-profit list always has exactly 3 levels, drawn from
the zone's three retracement levels plus the C price; it is sorted with the
extreme in the trade's favorable direction first (ascending for a bearish
trade, descending for a bullish one); when the zones are the pattern's own
Fibonacci zones it contains the C price whenever C lies on the favorable side
of D (C ≤ D for bearish, D ≤ C for bullish — the situation every regular
pattern geometry produces); and on placement every leg (and every limit-order
request) carries size `total / number of levels`. -/
theorem take_profits_amended (pattern : Pattern) (zones : Zones) :
    (calculate_take_profits pattern zones).length = 3 ∧
    (∀ t ∈ calculate_take_profits pattern zones,
      t ∈ [zones.fib_618, zones.fib_500, zones.fib_382, pattern.C.price]) ∧
    (pattern.direction = Direction.bearish →
      (calculate_take_profits pattern zones).Sorted (fun a b => a ≤ b)) ∧
    (pattern.direction = Direction.bullish →
      (calculate_take_profits pattern zones).Sorted (fun a b => b ≤ a)) ∧
    (zones = create_fibonacci_zones pattern →
      (pattern.direction = Direction.bearish → pattern.C.price ≤ pattern.D.price →
        pattern.C.price ∈ calculate_take_profits pattern zones) ∧
      (pattern.direction = Direction.bullish → pattern.D.price ≤ pattern.C.price →
        pattern.C.price ∈ calculate_take_profits pattern zones)) ∧
    (∀ (ex : Exchange) (position : Position),
      (∀ tp ∈ (place_take_profits ex position).1,
        tp.size = position.position_size / (position.take_profits.length : ℚ)) ∧
      (∀ act ∈ (place_take_profits ex position).2, ∃ price,
        act = VenueAction.limitOrder position.symbol
          (if position.direction = "BUY" then "sell" else "buy")
          (position.position_size / (position.take_profits.length : ℚ)) price)) := by
  refine ⟨?_, ?_, ?_, ?_, ?_, ?_⟩
  · cases h : pattern.direction <;>
      simp only [calculate_take_profits, h, List.length_take, List.length_insertionSort,
        List.length_append, List.length_cons, List.length_nil] <;> rfl
  · intro t ht
    cases h : pattern.direction <;>
      simp only [calculate_take_profits, h] at ht <;>
      · have := (List.perm_insertionSort _ _).mem_iff.mp (List.mem_of_mem_take ht)
        simpa using this
  · intro h
    simp only [calculate_take_profits, h]
    exact List.Pairwise.sublist (List.take_sublist 3 _) (List.sorted_insertionSort _ _)
  · intro h
    simp only [calculate_take_profits, h]
    exact List.Pairwise.sublist (List.take_sublist 3 _) (List.sorted_insertionSort _ _)
  · rintro rfl
    constructor
    · intro hdir hCD
      have habs : |pattern.D.price - pattern.C.price| = pattern.D.price - pattern.C.price :=
        abs_of_nonneg (by linarith)
      simp only [calculate_take_profits, hdir]
      apply mem_take_three_insertionSort _ (fun x y hxy hyx => le_antisymm hxy hyx)
      · simp
      · intro x hx
        simp only [create_fibonacci_zones, hdir, List.mem_append, List.mem_cons,
          List.not_mem_nil, or_false] at hx
        rcases hx with (h1 | h1 | h1) | h1 <;> subst h1 <;> linarith [habs]
    · intro hdir hCD
      have habs : |pattern.D.price - pattern.C.price| = -(pattern.D.price - pattern.C.price) :=
        abs_of_nonpos (by linarith)
      simp only [calculate_take_profits, hdir]
      apply mem_take_three_insertionSort _ (fun x y hxy hyx => le_antisymm hyx hxy)
      · simp
      · intro x hx
        simp only [create_fibonacci_zones, hdir, List.mem_append, List.mem_cons,
          List.not_mem_nil, or_false] at hx
        rcases hx with (h1 | h1 | h1) | h1 <;> subst h1 <;> linarith [habs]
  · intro ex position
    constructor
    · intro tp htp
      simp only [place_take_profits] at htp
      obtain ⟨pair, hpair, htp2⟩ := List.mem_flatMap.mp htp
      obtain ⟨iq, _hiq, rfl⟩ := List.mem_map.mp hpair
      revert htp2
      cases h : ex.limit_order_result iq.1 <;> simp [h]
      intro htp3
      rw [htp3]
    · intro act hact
      simp only [place_take_profits] at hact
      obtain ⟨pair, hpair, rfl⟩ := List.mem_map.mp hact
      obtain ⟨iq, _hiq, rfl⟩ := List.mem_map.mp hpair
      exact ⟨iq.2, rfl⟩

/-- Witness for C7 (amended): for `pat100` (bearish, C = 90 ≤ D = 100) with
its own Fibonacci zones, the C price is among the take profits. -/
theorem take_profits_amended_witness :
    pat100.C.price ∈ calculate_take_profits pat100 (create_fibonacci_zones pat100) :=
  ((take_profits_amended pat100 (create_fibonacci_zones pat100)).2.2.2.2.1 rfl).1 rfl
    (by norm_num [pat100])

/-! ## C9 — the pivot scan -/

/-- Auxiliary: a flatMap whose chunks carry their generating index in the
`index` field is sorted by index whenever the index list is. -/
theorem pairwise_index_flatMap (l : List Nat) (f : Nat → List Pivot)
    (hf : ∀ i p, p ∈ f i → p.index = i) (hl : l.Pairwise (· ≤ ·)) :
    ((l.flatMap f).map Pivot.index).Pairwise (· ≤ ·) := by
  induction l with
  | nil => simp
  | cons a l ih =>
    rw [List.flatMap_cons, List.map_append, List.pairwise_append]
    refine ⟨?_, ih hl.of_cons, ?_⟩
    · apply List.pairwise_of_forall_mem_list
      intro u hu w hw
      obtain ⟨p, hp, rfl⟩ := List.mem_map.mp hu
      obtain ⟨q, hq, rfl⟩ := List.mem_map.mp hw
      rw [hf a p hp, hf a q hq]
    · intro u hu w hw
      obtain ⟨p, hp, rfl⟩ := List.mem_map.mp hu
      obtain ⟨q, hq, rfl⟩ := List.mem_map.mp hw
      obtain ⟨j, hj, hq2⟩ := List.mem_flatMap.mp hq
      rw [hf a p hp, hf j q hq2]
      exact List.rel_of_pairwise_cons hl hj

/-- C9: bar `i` is marked as a High pivot iff it is at least `window` bars
from both series boundaries and its high is ≥ every high within `window` bars
on each side (ties keep the status; the Low rule is the mirror image with ≤ on
lows, and one bar may receive both marks); the output is ordered by bar index;
and a series shorter than `2*window+1` bars yields no pivots at all. -/
theorem find_pivots_spec (df : List Candle) (window : Nat) :
    (∀ i : Nat,
      ((∃ p ∈ find_pivots df window, p.index = i ∧ p.type = PivotKind.high) ↔
        (window ≤ i ∧ i + window < df.length ∧
          ∀ j : Nat, 1 ≤ j → j ≤ window →
            (df.map Candle.high).getD (i - j) 0 ≤ (df.map Candle.high).getD i 0 ∧
            (df.map Candle.high).getD (i + j) 0 ≤ (df.map Candle.high).getD i 0)) ∧
      ((∃ p ∈ find_pivots df window, p.index = i ∧ p.type = PivotKind.low) ↔
        (window ≤ i ∧ i + window < df.length ∧
          ∀ j : Nat, 1 ≤ j → j ≤ window →
            (df.map Candle.low).getD i 0 ≤ (df.map Candle.low).getD (i - j) 0 ∧
            (df.map Candle.low).getD i 0 ≤ (df.map Candle.low).getD (i + j) 0))) ∧
    ((find_pivots df window).map Pivot.index).Pairwise (· ≤ ·) ∧
    (df.length < 2 * window + 1 → find_pivots df window = []) := by
  have hrange : ∀ k : Nat, k ∈ List.range' window (df.length - 2 * window) ↔
      (window ≤ k ∧ k + window < df.length) := by
    intro k
    rw [List.mem_range'_1]
    omega
  have hallhi : ∀ i : Nat,
      ((((List.range' 1 window).all fun j =>
          decide ((df.map Candle.high).getD (i - j) 0 ≤ (df.map Candle.high).getD i 0)) &&
        ((List.range' 1 window).all fun j =>
          decide ((df.map Candle.high).getD (i + j) 0 ≤ (df.map Candle.high).getD i 0))) = true ↔
        ∀ j : Nat, 1 ≤ j → j ≤ window →
          (df.map Candle.high).getD (i - j) 0 ≤ (df.map Candle.high).getD i 0 ∧
          (df.map Candle.high).getD (i + j) 0 ≤ (df.map Candle.high).getD i 0) := by
    intro i
    rw [Bool.and_eq_true, List.all_eq_true, List.all_eq_true]
    constructor
    · rintro ⟨h1, h2⟩ j hj1 hj2
      have hjm : j ∈ List.range' 1 window := List.mem_range'_1.mpr (by omega)
      exact ⟨of_decide_eq_true (h1 j hjm), of_decide_eq_true (h2 j hjm)⟩
    · intro h
      refine ⟨fun j hjm => ?_, fun j hjm => ?_⟩
      · rw [List.mem_range'_1] at hjm
        exact decide_eq_true (h j (by omega) (by omega)).1
      · rw [List.mem_range'_1] at hjm
        exact decide_eq_true (h j (by omega) (by omega)).2
  have halllo : ∀ i : Nat,
      ((((List.range' 1 window).all fun j =>
          decide ((df.map Candle.low).getD i 0 ≤ (df.map Candle.low).getD (i - j) 0)) &&
        ((List.range' 1 window).all fun j =>
          decide ((df.map Candle.low).getD i 0 ≤ (df.map Candle.low).getD (i + j) 0))) = true ↔
        ∀ j : Nat, 1 ≤ j → j ≤ window →
          (df.map Candle.low).getD i 0 ≤ (df.map Candle.low).getD (i - j) 0 ∧
          (df.map Candle.low).getD i 0 ≤ (df.map Candle.low).getD (i + j) 0) := by
    intro i
    rw [Bool.and_eq_true, List.all_eq_true, List.all_eq_true]
    constructor
    · rintro ⟨h1, h2⟩ j hj1 hj2
      have hjm : j ∈ List.range' 1 window := List.mem_range'_1.mpr (by omega)
      exact ⟨of_decide_eq_true (h1 j hjm), of_decide_eq_true (h2 j hjm)⟩
    · intro h
      refine ⟨fun j hjm => ?_, fun j hjm => ?_⟩
      · rw [List.mem_range'_1] at hjm
        exact decide_eq_true (h j (by omega) (by omega)).1
      · rw [List.mem_range'_1] at hjm
        exact decide_eq_true (h j (by omega) (by omega)).2
  refine ⟨fun i => ⟨⟨?_, ?_⟩, ⟨?_, ?_⟩⟩, ?_, ?_⟩
  · -- high pivot, forward
    rintro ⟨p, hp, hidx, htype⟩
    simp only [find_pivots] at hp
    obtain ⟨k, hk, hpk⟩ := List.mem_flatMap.mp hp
    rcases List.mem_append.mp hpk with hm | hm
    · split at hm
      · rename_i hcnd
        rw [List.mem_singleton] at hm
        subst hm
        have hki : k = i := hidx
        subst hki
        rw [hrange k] at hk
        exact ⟨hk.1, hk.2, (hallhi k).mp hcnd⟩
      · exact absurd hm (List.not_mem_nil _)
    · split at hm
      · rw [List.mem_singleton] at hm
        subst hm
        simp at htype
      · exact absurd hm (List.not_mem_nil _)
  · -- high pivot, backward
    rintro ⟨hb1, hb2, hcond⟩
    refine ⟨{ index := i, price := (df.map Candle.high).getD i 0, type := PivotKind.high,
              timestamp := (df.getD i default).timestamp }, ?_, rfl, rfl⟩
    simp only [find_pivots]
    refine List.mem_flatMap.mpr ⟨i, (hrange i).mpr ⟨hb1, hb2⟩, ?_⟩
    refine List.mem_append.mpr (Or.inl ?_)
    rw [if_pos ((hallhi i).mpr hcond)]
    exact List.mem_singleton.mpr rfl
  · -- low pivot, forward
    rintro ⟨p, hp, hidx, htype⟩
    simp only [find_pivots] at hp
    obtain ⟨k, hk, hpk⟩ := List.mem_flatMap.mp hp
    rcases List.mem_append.mp hpk with hm | hm
    · split at hm
      · rw [List.mem_singleton] at hm
        subst hm
        simp at htype
      · exact absurd hm (List.not_mem_nil _)
    · split at hm
      · rename_i hcnd
        rw [List.mem_singleton] at hm
        subst hm
        have hki : k = i := hidx
        subst hki
        rw [hrange k] at hk
        exact ⟨hk.1, hk.2, (halllo k).mp hcnd⟩
      · exact absurd hm (List.not_mem_nil _)
  · -- low pivot, backward
    rintro ⟨hb1, hb2, hcond⟩
    refine ⟨{ index := i, price := (df.map Candle.low).getD i 0, type := PivotKind.low,
              timestamp := (df.getD i default).timestamp }, ?_, rfl, rfl⟩
    simp only [find_pivots]
    refine List.mem_flatMap.mpr ⟨i, (hrange i).mpr ⟨hb1, hb2⟩, ?_⟩
    refine List.mem_append.mpr (Or.inr ?_)
    rw [if_pos ((halllo i).mpr hcond)]
    exact List.mem_singleton.mpr rfl
  · -- output sorted by index
    simp only [find_pivots]
    apply pairwise_index_flatMap
    · intro k p hp
      rcases List.mem_append.mp hp with hm | hm <;>
        · split at hm
          · rw [List.mem_singleton] at hm
            subst hm
            rfl
          · exact absurd hm (List.not_mem_nil _)
    · exact List.pairwise_le_range' window (df.length - 2 * window)
  · -- short series: empty result
    intro hshort
    simp only [find_pivots]
    have hz : df.length - 2 * window = 0 := by omega
    rw [hz]
    rfl

/-- Witness for C9: the empty series is shorter than `2*1+1` bars and indeed
produces no pivots. -/
theorem find_pivots_spec_witness :
    List.length ([] : List Candle) < 2 * 1 + 1 ∧ find_pivots [] 1 = [] :=
  ⟨by decide, (find_pivots_spec [] 1).2.2 (by decide)⟩

/-! ## C10 — the trendline builders always see exactly three points -/

/-- C10: for a pattern whose points satisfy one of the two alternating
templates and whose direction is derived from D (as every detector output is),
X, B and D all carry the pivot kind of the trendline role, so the shared
point collection of both trendline builders is exactly `[X, B, D]` (3 points,
the `< 2` guard is unreachable), `_build_trendline` returns a trendline, and
the ZoneManager trendline reports `touches = 3` and `is_valid = True`. -/
theorem trendline_three_touches (df : List Candle) (pattern : Pattern)
    (hseq : is_valid_sequence [pattern.X, pattern.A, pattern.B, pattern.C, pattern.D] = true)
    (hdir : pattern.direction =
      (if pattern.D.type = PivotKind.high then Direction.bearish else Direction.bullish)) :
    (trendline_points pattern).length = 3 ∧
    trendline_points pattern = [pattern.X, pattern.B, pattern.D] ∧
    (build_trendline df pattern).isSome = true ∧
    ∃ t, create_trendline_zones df pattern = some t ∧ t.touches = 3 ∧ t.is_valid = true := by
  rw [is_valid_sequence, Bool.or_eq_true, decide_eq_true_eq, decide_eq_true_eq] at hseq
  have hpts : trendline_points pattern = [pattern.X, pattern.B, pattern.D] := by
    rcases hseq with h | h <;> obtain ⟨hX, hA, hB, hC, hD⟩ := by simpa using h
    · rw [hD] at hdir
      rw [if_neg (by decide)] at hdir
      simp [trendline_points, hdir, hX, hB, hD]
    · rw [hD] at hdir
      rw [if_pos rfl] at hdir
      simp [trendline_points, hdir, hX, hB, hD]
  refine ⟨by rw [hpts]; rfl, hpts, ?_, ?_⟩
  · simp [build_trendline, hpts]
  · simp [create_trendline_zones, hpts]

/-- Witness for C10: `pat100` (a Bearish-template pattern with derived
direction) over the empty 1h series yields a ZoneManager trendline with three
touches, marked valid. -/
theorem trendline_three_touches_witness :
    ∃ t, create_trendline_zones [] pat100 = some t ∧ t.touches = 3 ∧ t.is_valid = true :=
  (trendline_three_touches [] pat100 (by decide) (by decide)).2.2.2

/-! ## C6 — stop-loss detection during monitoring, per-position isolation -/

/-- C6: within one monitoring pass, the position at slot `k` whose recorded
stop-loss order id is no longer among the venue's open order ids is
transitioned to Closed with reason `'STOP_LOSS'`, its full-size PnL at the
stop price (`(stop − entry)·size` for Buy, `(entry − stop)·size` for Sell) is
realized in a trade-exit notification, and every take-profit leg that is
neither already executed nor itself filled (its order id still open) receives
a cancel call.  The fault oracle `failing` is universally quantified with only
`failing pid = false` assumed, and the slot count is preserved: an exception
on any other position neither skips nor reorders the processing of this one. -/
theorem stop_loss_monitoring (ex : Exchange) (now : Nat) (failing : String → Bool)
    (st : ManagerState) (k : Nat) (pid : String) (p : Position) (sid : String)
    (hk : st.active_positions[k]? = some (pid, p))
    (hfail : failing pid = false)
    (hsid : p.stop_order_id = some sid)
    (hopen : sid ∉ ex.open_orders) :
    (monitor_positions ex now failing st).1.active_positions.length =
        st.active_positions.length ∧
    ∃ p₂, (monitor_positions ex now failing st).1.active_positions[k]? = some (pid, p₂) ∧
      p₂.status = "CLOSED" ∧
      p₂.close_reason = some "STOP_LOSS" ∧
      p₂.close_time = some now ∧
      VenueAction.notifyTradeExit p.symbol p.direction p.entry_price p.stop_loss
          p.position_size
          (if p.direction = "BUY" then (p.stop_loss - p.entry_price) * p.position_size
           else (p.entry_price - p.stop_loss) * p.position_size)
          "Stop Loss atteint" ∈ (monitor_positions ex now failing st).2 ∧
      (∀ tp ∈ p.tp_orders, tp.executed = false →
        (∃ oid, tp.order_id = some oid ∧ oid ∈ ex.open_orders) →
        VenueAction.cancelOrder tp.order_id p.symbol ∈ (monitor_positions ex now failing st).2) := by
  have h1 : (check_position_status ex now p).1.status = "CLOSED" := by
    simp only [check_position_status, hsid]
    rw [if_neg hopen]
  have h2 : (check_position_status ex now p).1.close_reason = some "STOP_LOSS" := by
    simp only [check_position_status, hsid]
    rw [if_neg hopen]
  have h3 : (check_position_status ex now p).1.close_time = some now := by
    simp only [check_position_status, hsid]
    rw [if_neg hopen]
  have h4 : VenueAction.notifyTradeExit p.symbol p.direction p.entry_price p.stop_loss
      p.position_size
      (if p.direction = "BUY" then (p.stop_loss - p.entry_price) * p.position_size
       else (p.entry_price - p.stop_loss) * p.position_size)
      "Stop Loss atteint" ∈ (check_position_status ex now p).2 := by
    simp only [check_position_status, hsid]
    rw [if_neg hopen]
    exact List.mem_append.mpr (Or.inl (List.mem_append.mpr (Or.inr
      (List.mem_singleton.mpr rfl))))
  have h5 : ∀ tp ∈ p.tp_orders, tp.executed = false →
      (∃ oid, tp.order_id = some oid ∧ oid ∈ ex.open_orders) →
      VenueAction.cancelOrder tp.order_id p.symbol ∈ (check_position_status ex now p).2 := by
    rintro tp htp hexec ⟨oid, hoid, hoidopen⟩
    simp only [check_position_status, hsid]
    rw [if_neg hopen]
    refine List.mem_append.mpr (Or.inr ?_)
    refine List.mem_append.mpr (Or.inl ?_)
    refine List.mem_map.mpr ⟨tp, ?_, rfl⟩
    refine List.mem_filter.mpr ⟨?_, by rw [hexec]; rfl⟩
    refine List.mem_map.mpr ⟨(tp, ([] : List VenueAction)), ?_, rfl⟩
    refine List.mem_map.mpr ⟨tp, htp, ?_⟩
    rw [hoid]
    simp [hoidopen]
  -- lift to the monitoring pass
  obtain ⟨hlt, heq⟩ := List.getElem?_eq_some_iff.mp hk
  have hmem : (pid, p) ∈ st.active_positions := heq ▸ List.getElem_mem hlt
  have helem : ((pid, (check_position_status ex now p).1),
      (check_position_status ex now p).2) ∈ st.active_positions.map fun q =>
        if failing q.1 then (q, ([] : List VenueAction))
        else
          ((q.1, (check_position_status ex now q.2).1), (check_position_status ex now q.2).2) := by
    have := List.mem_map_of_mem (fun q =>
      if failing q.1 then (q, ([] : List VenueAction))
      else
        ((q.1, (check_position_status ex now q.2).1), (check_position_status ex now q.2).2)) hmem
    simpa [hfail] using this
  refine ⟨by simp [monitor_positions], (check_position_status ex now p).1, ?_, h1, h2, h3, ?_, ?_⟩
  · simp only [monitor_positions, List.getElem?_map, hk, Option.map_some']
    simp [hfail]
  · exact List.mem_flatMap.mpr ⟨_, helem, h4⟩
  · intro tp htp hexec hoid
    exact List.mem_flatMap.mpr ⟨_, helem, h5 tp htp hexec hoid⟩

/-- Witness for C6: in `st0` the active position `p0` (stop id `"s0"`, one
unexecuted take-profit leg `"t0"`) is monitored against a venue whose open
orders are just `["t0"]` — the stop id is gone, so `p0` is closed with the
stop-loss reason and its PnL `(8 − 10)·2` is notified. -/
def exch1 : Exchange :=
  { exch0 with open_orders := ["t0"], current_price := 9 }

/-- Witness for C6. -/
theorem stop_loss_monitoring_witness :
    ∃ p₂, (monitor_positions exch1 7 (fun _ => false) st0).1.active_positions[0]? =
        some ("p0", p₂) ∧
      p₂.status = "CLOSED" ∧
      p₂.close_reason = some "STOP_LOSS" ∧
      p₂.close_time = some 7 ∧
      VenueAction.notifyTradeExit pos0.symbol pos0.direction pos0.entry_price pos0.stop_loss
          pos0.position_size
          (if pos0.direction = "BUY"
           then (pos0.stop_loss - pos0.entry_price) * pos0.position_size
           else (pos0.entry_price - pos0.stop_loss) * pos0.position_size)
          "Stop Loss atteint" ∈ (monitor_positions exch1 7 (fun _ => false) st0).2 ∧
      (∀ tp ∈ pos0.tp_orders, tp.executed = false →
        (∃ oid, tp.order_id = some oid ∧ oid ∈ exch1.open_orders) →
        VenueAction.cancelOrder tp.order_id pos0.symbol ∈
          (monitor_positions exch1 7 (fun _ => false) st0).2) :=
  (stop_loss_monitoring exch1 7 (fun _ => false) st0 0 "p0" pos0 "s0" rfl rfl rfl
    (by decide)).2

/-! ## C1 — entry signal iff all three gates -/

/-- When the candle-close gate fires, the recorded close price is the last 5m
candle's close. -/
theorem close_price_of_confirmed (df_5m : List Candle) (zones : Zones) :
    (check_5m_candle_confirmation df_5m zones).confirmed = true →
    (check_5m_candle_confirmation df_5m zones).close_price =
      some (lastCandle df_5m).close := by
  intro h
  unfold check_5m_candle_confirmation at h ⊢
  by_cases h2 : df_5m.length < 2
  · rw [if_pos h2] at h
    exact absurd h (by simp)
  · rw [if_neg h2] at h ⊢
    by_cases h3 : zones.fib_886 = 0
    · rw [if_pos h3] at h
      exact absurd h (by simp)
    · rw [if_neg h3]

/-- On a fired candle gate, the Python falsy-fallback for the entry price
still results in the last 5m close. -/
theorem entry_price_fallback (df_5m : List Candle) (zones : Zones)
    (h : (check_5m_candle_confirmation df_5m zones).confirmed = true) :
    (match (check_5m_candle_confirmation df_5m zones).close_price with
     | none => some (lastCandle df_5m).close
     | some v => if v = 0 then some (lastCandle df_5m).close else some v) =
      some (lastCandle df_5m).close := by
  rw [close_price_of_confirmed df_5m zones h]
  by_cases hz : (lastCandle df_5m).close = 0 <;> simp [hz]

/-- C1: the entry signal is exactly the conjunction of the three gate booleans
(so any 2-of-3 combination leaves it false, the score being the count of true
gates), and a fired signal carries direction `'SELL'` for a bearish pattern /
`'BUY'` for a bullish one and the last fine-timeframe close as entry price.
(When gate 1 fired, the "confirming candle" is that same last 5m candle, and
the fallback for a missing/falsy price is also the last 5m close, so the two
clauses of the claim coincide on this one value.) -/
theorem entry_signal_iff_all_gates (df_1h df_5m : List Candle) (pattern : Pattern)
    (zones : Zones) :
    ((check_entry_confirmations df_1h df_5m pattern zones).entry_signal =
      ((check_entry_confirmations df_1h df_5m pattern zones).candle_5m_confirmation &&
       ((check_entry_confirmations df_1h df_5m pattern zones).trendline_break &&
        (check_entry_confirmations df_1h df_5m pattern zones).zone_break))) ∧
    ((check_entry_confirmations df_1h df_5m pattern zones).entry_signal = true →
      (check_entry_confirmations df_1h df_5m pattern zones).entry_direction =
        some (if pattern.direction = Direction.bearish then "SELL" else "BUY") ∧
      (check_entry_confirmations df_1h df_5m pattern zones).entry_price =
        some (lastCandle df_5m).close) := by
  constructor
  · cases hb1 : (check_5m_candle_confirmation df_5m zones).confirmed <;>
      cases hb2 : check_trendline_confirmation df_1h df_5m pattern zones <;>
        cases hb3 : check_zone_break_confirmation df_5m zones <;>
          simp [check_entry_confirmations, hb1, hb2, hb3]
  · intro hsig
    cases hb1 : (check_5m_candle_confirmation df_5m zones).confirmed <;>
      cases hb2 : check_trendline_confirmation df_1h df_5m pattern zones <;>
        cases hb3 : check_zone_break_confirmation df_5m zones <;>
          simp only [check_entry_confirmations, hb1, hb2, hb3] at hsig ⊢ <;>
            norm_num at hsig ⊢ <;>
              exact entry_price_fallback df_5m zones hb1

/-- 1h candles whose highs lie exactly on the line `120 - 5i` through the
X/B/D highs of `pat100`. -/
def df1h_c1 : List Candle :=
  [ { timestamp := 0, op := 0, high := 120, low := 0, close := 0, volume := 0 },
    { timestamp := 1, op := 0, high := 115, low := 0, close := 0, volume := 0 },
    { timestamp := 2, op := 0, high := 110, low := 0, close := 0, volume := 0 },
    { timestamp := 3, op := 0, high := 105, low := 0, close := 0, volume := 0 },
    { timestamp := 4, op := 0, high := 100, low := 0, close := 0, volume := 0 } ]

/-- Two 5m candles; the last closes at 120 — above the projected trendline
price (100), below the 0.886 level (200) and below the entry-zone lower bound
(150). -/
def df5m_c1 : List Candle :=
  [ { timestamp := 0, op := 0, high := 0, low := 0, close := 0, volume := 0 },
    { timestamp := 1, op := 0, high := 0, low := 0, close := 120, volume := 0 } ]

/-- A bearish zone set making all three gates pass for `df5m_c1`. -/
def zones_c1 : Zones :=
  { pattern_id := "butterfly_4"
    direction := Direction.bearish
    base_price := 100
    target_price := 90
    fib_236 := 0
    fib_382 := 0
    fib_500 := 0
    fib_618 := 0
    fib_786 := 0
    fib_886 := 200
    fib_1000 := 0
    entry_zone := { upper := 300, lower := 150, is_active := true }
    rebound_zone := { upper := 0, lower := 0, is_active := true } }

/-- Witness for C1: all three gates fire, the signal is on, the direction is
`'SELL'` and the entry price is the last 5m close. -/
theorem entry_signal_iff_all_gates_witness :
    (check_entry_confirmations df1h_c1 df5m_c1 pat100 zones_c1).entry_signal = true ∧
    (check_entry_confirmations df1h_c1 df5m_c1 pat100 zones_c1).entry_direction =
      some "SELL" ∧
    (check_entry_confirmations df1h_c1 df5m_c1 pat100 zones_c1).entry_price =
      some (lastCandle df5m_c1).close := by
  have h := entry_signal_iff_all_gates df1h_c1 df5m_c1 pat100 zones_c1
  have hsig : (check_entry_confirmations df1h_c1 df5m_c1 pat100 zones_c1).entry_signal
      = true := by
    rw [h.1]
    norm_num [check_entry_confirmations,
      check_5m_candle_confirmation, check_trendline_confirmation, build_trendline,
      trendline_points, calculate_trendline_equation, count_trendline_touches,
      check_trendline_break, check_zone_break_confirmation, lastCandle, df1h_c1, df5m_c1,
      pat100, zones_c1, abs_eq_max_neg, max_def, min_def, List.range_succ, List.getD,
      List.getLastD_cons, List.zip]
  refine ⟨hsig, ?_, (h.2 hsig).2⟩
  rw [(h.2 hsig).1]
  norm_num [pat100]
